import Mathlib

/-!
Verification of the HTTP gateway in `src/api/api.py` of the
retail-media-creative-builder repository.

The gateway is embedded shallowly: each route handler becomes a Lean
function whose external collaborators (the Pipeline Runner `run_turn`,
the Mongo-backed repositories, the artifact filesystem) are passed in as
explicit values or functions.  Python truthiness (`x or default`) is
modelled faithfully by helpers that treat the empty list / empty string
as falsy.  Components of the repository that are not part of the source
excerpt (the Pipeline Runner internals and the Store) are modelled from
the specification and marked as such in their doc comments.
-/

/-- Result of an HTTP handler: either a value, or an HTTPException
carrying a status code and a detail string (FastAPI `HTTPException`). -/
inductive HttpResult (α : Type) where
  | ok (value : α)
  | httpError (status : Nat) (detail : String)
deriving Repr, DecidableEq

/-- Request body of `POST /api/v1/turns` (`TurnRequest` in api.py).
`A` is the opaque type of one attachment entry, `U` and `C` the opaque
value types of the `ui_context` and `session_config` maps (dicts are
modelled as association lists).  `none` models JSON null. -/
structure TurnRequest (A U C : Type) where
  user_text : String
  session_id : Option String
  attachments : Option (List A)
  ui_context : Option (List (String × U))
  title_if_new : Option String
  session_config : Option (List (String × C))

/-- Response of `POST /api/v1/turns` (`TurnResponse` in api.py).
`A` is the opaque type of one artifact reference. -/
structure TurnResponse (A : Type) where
  session_id : String
  turn_id : String
  turn_index : Nat
  compliance_result : String
  summary : Option String
  artifacts : List A

/-- Response of `GET /api/health` (`HealthResponse` in api.py). -/
structure HealthResponse where
  status : String
  version : String
  database : String
deriving Repr, DecidableEq

/-- Python `x or d` for an optional list: `None` and the empty list are
falsy and give the default. -/
def pyOrList {β : Type} (x : Option (List β)) (d : List β) : List β :=
  match x with
  | none => d
  | some l => if l.isEmpty then d else l

/-- Python `x or d` for an optional string: `None` and `""` are falsy
and give the default. -/
def pyOrStr (x : Option String) (d : String) : String :=
  match x with
  | none => d
  | some s => if s = "" then d else s

/-- The keyword arguments the gateway passes to `run_turn`
(api.py lines 111-118). -/
structure RunnerArgs (A U C : Type) where
  session_id : Option String
  user_text : String
  attachments : List A
  ui_context : List (String × U)
  title_if_new : String
  session_config_if_new : List (String × C)

/-- How `create_turn` builds the arguments of its `run_turn` call
(api.py lines 111-118): each optional field goes through Python `or`
with the empty-collection / "New Session" default. -/
def runnerArgs {A U C : Type} (req : TurnRequest A U C) : RunnerArgs A U C :=
  { session_id := req.session_id
    user_text := req.user_text
    attachments := pyOrList req.attachments []
    ui_context := pyOrList req.ui_context []
    title_if_new := pyOrStr req.title_if_new "New Session"
    session_config_if_new := pyOrList req.session_config [] }

/-- Handler of `POST /api/v1/turns` (api.py lines 96-121).  `runner` is
the external `run_turn`, returning either a turn result or the message
of the exception it raised; any exception is mapped to HTTP 500 with
detail `"Turn generation failed: " ++ message`. -/
def create_turn {A U C : Type} (req : TurnRequest A U C)
    (runner : RunnerArgs A U C → Except String (TurnResponse A)) :
    HttpResult (TurnResponse A) :=
  match runner (runnerArgs req) with
  | .ok r => .ok r
  | .error e => .httpError 500 ("Turn generation failed: " ++ e)

/-- A stored session record (see spec section 3). `C` is the opaque
value type of the configuration map. -/
structure SessionRec (C : Type) where
  session_id : String
  title : String
  config : List (String × C)

/-- A stored turn record, restricted to the fields the gateway
observes (see spec section 3). -/
structure TurnRec where
  turn_id : String
  session_id : String
  turn_index : Nat
deriving Repr, DecidableEq

/-- Handler of `GET /api/v1/sessions/{session_id}` (api.py lines
123-136).  `lookup` is the outcome of the Store read: an exception
message, or the record found (`none` when absent).  Absent maps to 404,
an exception to 500 with the message as detail. -/
def get_session {C : Type} (lookup : Except String (Option (SessionRec C))) :
    HttpResult (SessionRec C) :=
  match lookup with
  | .error e => .httpError 500 e
  | .ok none => .httpError 404 "Session not found"
  | .ok (some s) => .ok s

/-- Handler of `GET /api/v1/turns/{turn_id}` (api.py lines 153-166),
mapping the Store read outcome exactly like `get_session`. -/
def get_turn (lookup : Except String (Option TurnRec)) :
    HttpResult TurnRec :=
  match lookup with
  | .error e => .httpError 500 e
  | .ok none => .httpError 404 "Turn not found"
  | .ok (some t) => .ok t

/-- Handler of `GET /api/health` (api.py lines 79-94).  `probe` is the
outcome of the trivial Store read `find_one({"_id": "health_check"})`:
success, or the raised exception's message.  A total function: every
probe outcome yields a `HealthResponse`. -/
def health_check (probe : Except String Unit) : HealthResponse :=
  { status := "healthy"
    version := "1.0.0"
    database :=
      match probe with
      | .ok _ => "connected"
      | .error e => "error: " ++ e }

/-- The artifact path built by `get_artifact` (api.py line 171): the
direct concatenation of the three request path segments under the
`artifacts/` root, with no sanitization. -/
def artifact_path (session_id turn_id filename : String) : String :=
  "artifacts/" ++ session_id ++ "/" ++ turn_id ++ "/" ++ filename

/-- Handler of `GET /api/v1/artifacts/{session_id}/{turn_id}/{filename}`
(api.py lines 168-174).  `fs` maps a path to the content stored there,
`none` when no file exists (`os.path.exists` false).  On a hit the file
is served with media type `image/png`. -/
def get_artifact {β : Type} (fs : String → Option β)
    (session_id turn_id filename : String) : HttpResult (β × String) :=
  match fs (artifact_path session_id turn_id filename) with
  | none => .httpError 404 "Artifact not found"
  | some content => .ok (content, "image/png")

/-- Insert a turn into a list sorted by ascending `turn_index`. -/
def insertByIndex (t : TurnRec) : List TurnRec → List TurnRec
  | [] => [t]
  | u :: us =>
    if t.turn_index ≤ u.turn_index then t :: u :: us
    else u :: insertByIndex t us

/-- Insertion sort of turn records by ascending `turn_index`. -/
def sortByIndex : List TurnRec → List TurnRec
  | [] => []
  | t :: ts => insertByIndex t (sortByIndex ts)

/-- Modelled from the spec: the Store operation `ListTurnsBySession`
(`TurnRepo.get_turns_by_session`, not part of the source excerpt):
the session's turns ordered by turn index ascending, paginated by
offset; an unknown session simply has no matching turns, so the result
is empty rather than an error. -/
def listTurnsBySession (turns : List TurnRec) (sid : String)
    (limit skip : Nat) : List TurnRec :=
  ((sortByIndex (turns.filter (fun t => t.session_id == sid))).drop skip).take limit

/-- Response body of `GET /api/v1/sessions/{session_id}/turns`
(api.py lines 145-149). -/
structure TurnsResponse where
  session_id : String
  count : Nat
  turns : List TurnRec
deriving Repr, DecidableEq

/-- Handler of `GET /api/v1/sessions/{session_id}/turns` (api.py lines
138-151).  The query parameters carry FastAPI defaults `limit = 50`,
`skip = 0`, modelled by `Option.getD`; the handler wraps the repository
listing with its length. -/
def get_session_turns (turns : List TurnRec) (session_id : String)
    (limit skip : Option Nat) : HttpResult TurnsResponse :=
  let res := listTurnsBySession turns session_id (limit.getD 50) (skip.getD 0)
  .ok { session_id := session_id, count := res.length, turns := res }

/-- The persistent Store state: session records and turn records. -/
structure Store (C : Type) where
  sessions : List (SessionRec C)
  turns : List TurnRec

/-- The result the generation pipeline produces for one turn, before
persistence: compliance status, optional summary, artifact list. -/
structure GenPayload (A : Type) where
  compliance_result : String
  summary : Option String
  artifacts : List A

/-- Modelled from the spec: the Pipeline Runner `run_turn` (external,
not part of the source excerpt).  When `session_id` is absent it
creates one new Session whose title and configuration are the
`title_if_new` / `session_config_if_new` arguments; generation
(`gen`) either fails — in which case nothing is persisted, the
returned state is an error and carries no Store (all-or-nothing) — or
succeeds, committing exactly one new Turn record whose index is the
number of turns already in the session.  `newSid` and `newTid` stand
for the identifiers the runner generates. -/
def run_turn {A U C : Type} (store : Store C) (args : RunnerArgs A U C)
    (newSid newTid : String) (gen : Except String (GenPayload A)) :
    Except String (Store C × TurnResponse A) :=
  let sid := args.session_id.getD newSid
  let sessions :=
    match args.session_id with
    | some _ => store.sessions
    | none =>
      { session_id := newSid
        title := args.title_if_new
        config := args.session_config_if_new } :: store.sessions
  match gen with
  | .error e => .error e
  | .ok g =>
    let idx := (store.turns.filter (fun t => t.session_id == sid)).length
    .ok ({ sessions := sessions
           turns := { turn_id := newTid, session_id := sid, turn_index := idx }
                    :: store.turns },
         { session_id := sid
           turn_id := newTid
           turn_index := idx
           compliance_result := g.compliance_result
           summary := g.summary
           artifacts := g.artifacts })

/-- The `POST /api/v1/turns` handler together with the spec-modelled
persistence of `run_turn`: returns the Store state after the request
and the HTTP outcome.  On a runner error the handler leaves the Store
untouched and answers 500 (api.py lines 110-121). -/
def create_turn_full {A U C : Type} (store : Store C)
    (req : TurnRequest A U C) (newSid newTid : String)
    (gen : Except String (GenPayload A)) :
    Store C × HttpResult (TurnResponse A) :=
  match run_turn store (runnerArgs req) newSid newTid gen with
  | .ok (store2, resp) => (store2, .ok resp)
  | .error e => (store, .httpError 500 ("Turn generation failed: " ++ e))

/-- One step of POSIX-style path resolution: skip empty and `.`
segments, let `..` pop the previous segment (or accumulate when the
stack is already above the start). The accumulator is kept reversed. -/
def stepSeg (acc : List String) (s : String) : List String :=
  if s = "" ∨ s = "." then acc
  else if s = ".." then
    match acc with
    | [] => [".."]
    | a :: rest => if a = ".." then ".." :: a :: rest else rest
  else s :: acc

/-- Split a character list at every slash. -/
def splitSlashAux : List Char → List Char → List String
  | [], acc => [String.mk acc.reverse]
  | c :: cs, acc =>
    if c = '/' then String.mk acc.reverse :: splitSlashAux cs []
    else splitSlashAux cs (c :: acc)

/-- The slash-separated segments of a path. -/
def splitSlash (p : String) : List String :=
  splitSlashAux p.toList []

/-- Resolve a slash-separated relative path to its normal-form segment
list (`..` cancels the preceding segment). -/
def resolvePath (p : String) : List String :=
  ((splitSlash p).foldl stepSeg []).reverse

/-- A served path escapes the artifact root when its resolved form does
not stay below the `artifacts` directory. -/
def escapesArtifactRoot (p : String) : Bool :=
  match resolvePath p with
  | "artifacts" :: _ :: _ => false
  | _ => true

/- Concrete fixtures used by witnesses and counterexamples. -/

/-- A minimal turn request with every optional field null. -/
def reqU : TurnRequest Unit Unit Unit :=
  { user_text := "make a banner"
    session_id := none
    attachments := none
    ui_context := none
    title_if_new := none
    session_config := none }

/-- A turn request supplying the empty string as `title_if_new`. -/
def reqEmptyTitle : TurnRequest Unit Unit Unit :=
  { reqU with title_if_new := some "" }

/-- A turn request supplying a non-empty `title_if_new`. -/
def reqTitled : TurnRequest Unit Unit Unit :=
  { reqU with title_if_new := some "Summer" }

/-- A turn request supplying concrete opaque payloads. -/
def reqPayloads : TurnRequest Unit Unit Unit :=
  { reqU with
    attachments := some [()]
    ui_context := some [("format", ())]
    session_config := some [("brand", ())] }

/-- The empty Store. -/
def emptyStore : Store Unit := { sessions := [], turns := [] }

/-- A successful generation payload. -/
def genOkU : GenPayload Unit :=
  { compliance_result := "pass", summary := none, artifacts := [] }

/-- A filesystem holding one file outside the artifact root, at the
path reached through `..` segments. -/
def trapFs : String → Option String :=
  fun p => if p = "artifacts/../../secret.png" then some "secret" else none

/-- C1: if the Pipeline Runner call raises with message `e`, `create_turn`
answers HTTP 500 whose detail is exactly `"Turn generation failed: " ++ e`
(the message surfaced verbatim inside the detail), and the response is a
function of the single runner outcome at `runnerArgs req` — there is no
second consultation of the runner, hence no automatic retry. -/
theorem create_turn_generation_error_500 {A U C : Type}
    (req : TurnRequest A U C)
    (runner : RunnerArgs A U C → Except String (TurnResponse A)) (e : String)
    (h : runner (runnerArgs req) = .error e) :
    create_turn req runner = .httpError 500 ("Turn generation failed: " ++ e) ∧
    ∀ runner2 : RunnerArgs A U C → Except String (TurnResponse A),
      runner2 (runnerArgs req) = runner (runnerArgs req) →
      create_turn req runner2 = create_turn req runner := by
  constructor
  · unfold create_turn
    rw [h]
  · intro runner2 h2
    unfold create_turn
    rw [h2]

/-- Witness for C1 at a concrete request and a runner failing with
message "boom". -/
theorem create_turn_generation_error_500_witness :
    create_turn reqU (fun _ => Except.error "boom") =
      HttpResult.httpError 500 ("Turn generation failed: " ++ "boom") :=
  (create_turn_generation_error_500 reqU (fun _ => Except.error "boom") "boom" rfl).1

/-- C2: a Store read that finds no record (absent session, absent turn)
is answered with HTTP 404, for both `get_session` and `get_turn`; the
404 branch is taken, not the 500 branch reserved for raised errors. -/
theorem absent_reads_map_to_404 {C : Type} :
    get_session (C := C) (.ok none) = .httpError 404 "Session not found" ∧
    get_turn (.ok none) = .httpError 404 "Turn not found" :=
  ⟨rfl, rfl⟩

/-- C3: `get_artifact` consults the single deterministic path
`artifact_path session_id turn_id filename`; when the filesystem has no
file there it answers 404, and when the file exists it serves its
content with media type image/png.  Every outcome is one of these two
responses — the handler is total. -/
theorem get_artifact_404_or_png {β : Type} (fs : String → Option β)
    (sid tid fn : String) :
    (fs (artifact_path sid tid fn) = none →
      get_artifact fs sid tid fn = .httpError 404 "Artifact not found") ∧
    (∀ c, fs (artifact_path sid tid fn) = some c →
      get_artifact fs sid tid fn = .ok (c, "image/png")) := by
  constructor
  · intro h
    unfold get_artifact
    rw [h]
  · intro c h
    unfold get_artifact
    rw [h]

/-- Witness for C3 at a concrete empty filesystem and a concrete full
filesystem. -/
theorem get_artifact_404_or_png_witness :
    get_artifact (fun _ => (none : Option Unit)) "s" "t" "a.png" =
      HttpResult.httpError 404 "Artifact not found" ∧
    get_artifact (fun _ => some ()) "s" "t" "a.png" =
      HttpResult.ok ((), "image/png") :=
  ⟨(get_artifact_404_or_png (fun _ => (none : Option Unit)) "s" "t" "a.png").1 rfl,
   (get_artifact_404_or_png (fun _ => some ()) "s" "t" "a.png").2 () rfl⟩

/-- C4: `health_check` is a total function of the probe outcome — it
never raises — and its database field is either "connected" or an error
string prefixed with "error: ". -/
theorem health_check_never_raises (probe : Except String Unit) :
    (health_check probe).database = "connected" ∨
    ∃ e, (health_check probe).database = "error: " ++ e := by
  cases probe with
  | ok _ => exact Or.inl rfl
  | error e => exact Or.inr ⟨e, rfl⟩

/-- C10: every `health_check` response has status "healthy" and
version "1.0.0", whatever the probe outcome; only the database field
depends on the probe. -/
theorem health_check_status_version_constant (probe : Except String Unit) :
    (health_check probe).status = "healthy" ∧
    (health_check probe).version = "1.0.0" ∧
    ∀ probe2, (health_check probe2).status = (health_check probe).status ∧
      (health_check probe2).version = (health_check probe).version :=
  ⟨rfl, rfl, fun _ => ⟨rfl, rfl⟩⟩

/-- C5: omitted `limit` and `skip` query parameters behave exactly like
the explicit values 50 and 0, and a session with no turns (in
particular, an unknown session id) yields `count 0, turns []` as a
successful response, not an error. -/
theorem get_session_turns_defaults_and_empty (turns : List TurnRec)
    (sid : String) :
    (get_session_turns turns sid none none =
      get_session_turns turns sid (some 50) (some 0)) ∧
    (∀ limit skip : Option Nat, (∀ t ∈ turns, t.session_id ≠ sid) →
      get_session_turns turns sid limit skip =
        .ok { session_id := sid, count := 0, turns := [] }) := by
  constructor
  · rfl
  · intro limit skip h
    have hf : turns.filter (fun t => t.session_id == sid) = [] := by
      rw [List.filter_eq_nil_iff]
      intro t ht
      simpa using h t ht
    unfold get_session_turns listTurnsBySession
    rw [hf]
    simp [sortByIndex]

/-- Witness for C5: a store whose only turn belongs to session "a",
queried for session "b". -/
theorem get_session_turns_defaults_and_empty_witness :
    get_session_turns [{ turn_id := "t1", session_id := "a", turn_index := 0 }]
        "b" (some 1) (some 1) =
      HttpResult.ok { session_id := "b", count := 0, turns := [] } :=
  (get_session_turns_defaults_and_empty
      [{ turn_id := "t1", session_id := "a", turn_index := 0 }] "b").2
    (some 1) (some 1) (by decide)

/-- Counterexample for C6: the claim says the stored title equals the
supplied `title_if_new` for every supplied value, but Python `or`
treats the supplied empty string as falsy: the request supplies
`title_if_new = ""`, yet the new session is stored with title
"New Session", which differs from "". -/
theorem create_turn_empty_title_counterexample :
    reqEmptyTitle.title_if_new = some "" ∧
    (create_turn_full emptyStore reqEmptyTitle "s1" "t1"
        (Except.ok genOkU)).1.sessions.map (fun s => s.title) =
      ["New Session"] ∧
    ("New Session" : String) ≠ "" := by
  refine ⟨rfl, rfl, by decide⟩

/-- C6 amended: a CreateTurn request with no session id creates exactly
one new session whose stored title is the supplied `title_if_new` when
that is a non-empty string, and "New Session" when `title_if_new` is
null or the empty string (the gateway passes
`request.title_if_new or "New Session"` into the Pipeline Runner). -/
theorem create_turn_new_session_title {A U C : Type} (store : Store C)
    (req : TurnRequest A U C) (newSid newTid : String) (g : GenPayload A)
    (h : req.session_id = none) :
    ∃ s, (create_turn_full store req newSid newTid (.ok g)).1.sessions =
        s :: store.sessions ∧
      s.session_id = newSid ∧
      s.title = match req.title_if_new with
                | none => "New Session"
                | some t => if t = "" then "New Session" else t := by
  refine ⟨{ session_id := newSid
            title := pyOrStr req.title_if_new "New Session"
            config := pyOrList req.session_config [] }, ?_, rfl, ?_⟩
  · unfold create_turn_full run_turn runnerArgs
    simp [h]
  · cases req.title_if_new with
    | none => rfl
    | some t => rfl

/-- Witness for C6 amended at a concrete request carrying the
non-empty title "Summer". -/
theorem create_turn_new_session_title_witness :
    ∃ s, (create_turn_full emptyStore reqTitled "s1" "t1"
        (Except.ok genOkU)).1.sessions = s :: emptyStore.sessions ∧
      s.session_id = "s1" ∧ s.title = "Summer" := by
  have h := create_turn_new_session_title emptyStore reqTitled "s1" "t1" genOkU rfl
  simpa [reqTitled, reqU] using h

/-- C7: when generation fails, the Store after the request is exactly
the Store before it (all-or-nothing, nothing partial persisted); when
it succeeds, exactly one Turn record is added, and one Session record
is added precisely when the request carried no session id. -/
theorem create_turn_all_or_nothing {A U C : Type} (store : Store C)
    (req : TurnRequest A U C) (newSid newTid : String) :
    (∀ e : String,
      (create_turn_full store req newSid newTid (.error e)).1 = store) ∧
    (∀ g : GenPayload A,
      (create_turn_full store req newSid newTid (.ok g)).1.turns.length =
        store.turns.length + 1 ∧
      (create_turn_full store req newSid newTid (.ok g)).1.sessions.length =
        store.sessions.length +
          (match req.session_id with | none => 1 | some _ => 0)) := by
  constructor
  · intro e
    rfl
  · intro g
    constructor
    · simp [create_turn_full, run_turn]
    · cases hs : req.session_id with
      | none => simp [create_turn_full, run_turn, runnerArgs, hs]
      | some sid => simp [create_turn_full, run_turn, runnerArgs, hs]

/-- C8: whenever the client supplies the `attachments`, `ui_context`
or `session_config` payloads (a non-null list or map), `create_turn`
passes exactly that value into the `run_turn` call — the payloads are
forwarded unmodified, treated as opaque, for every element type. -/
theorem runnerArgs_forwards_payloads {A U C : Type}
    (req : TurnRequest A U C) :
    (∀ atts, req.attachments = some atts →
      (runnerArgs req).attachments = atts) ∧
    (∀ ui, req.ui_context = some ui → (runnerArgs req).ui_context = ui) ∧
    (∀ cfg, req.session_config = some cfg →
      (runnerArgs req).session_config_if_new = cfg) := by
  refine ⟨?_, ?_, ?_⟩ <;>
    intro x h <;>
    simp only [runnerArgs, pyOrList, h] <;>
    cases x <;> simp

/-- Witness for C8 at a concrete request carrying one attachment, one
ui_context entry and one session_config entry. -/
theorem runnerArgs_forwards_payloads_witness :
    (runnerArgs reqPayloads).attachments = [()] ∧
    (runnerArgs reqPayloads).ui_context = [("format", ())] ∧
    (runnerArgs reqPayloads).session_config_if_new = [("brand", ())] :=
  ⟨(runnerArgs_forwards_payloads reqPayloads).1 [()] rfl,
   (runnerArgs_forwards_payloads reqPayloads).2.1 [("format", ())] rfl,
   (runnerArgs_forwards_payloads reqPayloads).2.2 [("brand", ())] rfl⟩

/-- C9: the served path is the direct concatenation of the three
segments under `artifacts/` with no sanitization, so `..` segments
resolve outside the artifact root; with both id segments set to `..`,
`get_artifact` happily serves a file that lives above the root. -/
theorem get_artifact_escapes_root :
    artifact_path ".." ".." "secret.png" = "artifacts/../../secret.png" ∧
    escapesArtifactRoot (artifact_path ".." ".." "secret.png") = true ∧
    get_artifact trapFs ".." ".." "secret.png" =
      HttpResult.ok ("secret", "image/png") := by
  refine ⟨rfl, by decide, rfl⟩
